import Mathlib

/-!
Shallow embedding of the seaplane CLI/SDK token-refresh-aware request retry
wrapper and request-builder layer, together with the locks-API error mapper
and the identity (token) endpoint client.

The Rust sources embedded here are:
  * `seaplane-cli/src/macros.rs` (`maybe_retry!`)
  * `seaplane-cli/src/api/restrict.rs` (`RestrictReq` and its methods)
  * `seaplane-sdk/rust/src/api/identity/v1.rs` (`TokenRequestBuilder`,
    `TokenRequest::access_token`, `TokenRequest::access_token_json`)
  * `seaplane/src/api/v1/locks/error.rs` (`map_error`, `LocksErrorKind`)

Network effects are modelled by an explicit `World` record holding oracles
for the identity endpoint and the resource endpoint together with call
counters and a log of the bearer tokens sent on resource requests.
Compile-time `#[cfg(feature = ...)]` gates are modelled as explicit boolean
feature records passed to the embedded functions.
-/

namespace Seaplane

/-- The kinds of the locks error taxonomy, from
`seaplane/src/api/v1/locks/error.rs` (`enum LocksErrorKind`). -/
inductive LocksErrorKind where
  | unimplementedHttpStatus (code : Nat)
  | invalidRequest
  | notLoggedIn
  | lockNotFound
  | lockAlreadyHeld
  | internalError
  | serviceUnavailable
  | unknown
deriving DecidableEq, Repr

/-- The JSON error body shape `{status, title, detail?}` from
`seaplane/src/api/v1/locks/error.rs` (`struct ErrorResponse`). -/
structure ErrorResponse where
  status : Nat
  title : String
  detail : Option String
deriving DecidableEq, Repr

/-- The SDK error type, restricted to the variants the embedded code can
produce: API-response errors carrying an HTTP status, the missing-api-key
construction error, JSON-decoding failures, classified locks errors, the
SDK request-builder failure for an invalid target shape, and transport
failures that carry no HTTP status. -/
inductive SeaplaneError where
  | apiResponse (status : Nat)
  | missingRequestApiKey
  | jsonDecode
  | locksError (body : ErrorResponse) (kind : LocksErrorKind)
  | invalidTargetShape
  | transport
deriving DecidableEq, Repr

/-- `ApiError::is_http_unauthorized`: the guard used by `maybe_retry!` to
decide whether to re-authenticate; true exactly for HTTP 401 responses. -/
def SeaplaneError.is_http_unauthorized : SeaplaneError → Bool
  | .apiResponse s => s == 401
  | _ => false

/-- The CLI-side error type. `seaplane-cli/src/error.rs` is not under the
provided sources; only its use as `CliError::from` (an error-type mapping
that wraps the SDK error) is visible from `macros.rs` and `restrict.rs`,
so it is embedded as a plain wrapper around `SeaplaneError`. -/
inductive CliError where
  | seaplane (e : SeaplaneError)
deriving DecidableEq, Repr

/-- `CliError::from(SeaplaneError)`: the error-type mapping applied by the
retry wrapper; it wraps, never drops or rewrites, the SDK error. -/
def CliError.fromErr (e : SeaplaneError) : CliError := .seaplane e

/-! ## Locks error mapper (`seaplane/src/api/v1/locks/error.rs`) -/

/-- `impl From<Option<StatusCode>> for LocksErrorKind`: classification of
an optional HTTP status into a `LocksErrorKind`. -/
def LocksErrorKind.fromStatus : Option Nat → LocksErrorKind
  | some 400 => .invalidRequest
  | some 401 => .notLoggedIn
  | some 404 => .lockNotFound
  | some 409 => .lockAlreadyHeld
  | some 500 => .internalError
  | some 503 => .serviceUnavailable
  | some c => .unimplementedHttpStatus c
  | none => .unknown

/-- A response body as far as the embedded code observes it: either raw
text, or text that parses as the JSON error shape `{status, title,
detail?}`, or text that parses as the JSON access-token shape
`{token, tenant, subdomain}`. -/
inductive Body where
  | raw (s : String)
  | errJson (status : Nat) (title : String) (detail : Option String)
  | tokenJson (token tenant subdomain : String)
deriving DecidableEq, Repr

/-- `Response::text()`: every body has a textual rendering; for bodies that
happen to be JSON the exact rendering is irrelevant to the claims, so a
canonical one is chosen. -/
def Body.text : Body → String
  | .raw s => s
  | .errJson _ t _ => t
  | .tokenJson t _ _ => t

/-- `Response::json::<ErrorResponse>()`: succeeds exactly when the body is
the JSON error shape `{status, title, detail?}`. -/
def Body.jsonErrorResponse : Body → Except SeaplaneError ErrorResponse
  | .errJson s t d => .ok ⟨s, t, d⟩
  | _ => .error .jsonDecode

/-- An HTTP response as observed by the embedded code: a status and a body. -/
structure HttpResponse where
  status : Nat
  body : Body
deriving DecidableEq, Repr

/-- `Response::error_for_status_ref()` errors exactly for client- and
server-error statuses (400–599). -/
def HttpResponse.isErrorStatus (r : HttpResponse) : Bool :=
  400 ≤ r.status && r.status ≤ 599

/-- `map_error` from `seaplane/src/api/v1/locks/error.rs`: for an
error-status response, classify the status into a `LocksErrorKind` and
parse the body as `ErrorResponse` (the `?` on `resp.json()` propagates a
JSON-decoding failure, dropping the classified kind); otherwise return
the response unchanged. -/
def map_error (resp : HttpResponse) : Except SeaplaneError HttpResponse :=
  if resp.isErrorStatus then
    match resp.body.jsonErrorResponse with
    | .ok body => .error (.locksError body (LocksErrorKind.fromStatus (some resp.status)))
    | .error e => .error e
  else
    .ok resp

/-! ## Identity endpoint client (`seaplane-sdk/rust/src/api/identity/v1.rs`) -/

/-- `struct AccessToken`: the JWT token with tenant OID and subdomain. -/
structure AccessToken where
  token : String
  tenant : String
  subdomain : String
deriving DecidableEq, Repr

/-- The compile-time cargo features that gate the SDK token-request code
(`#[cfg(feature = ...)]` in `identity/v1.rs`), modelled as explicit
booleans. -/
structure SdkFeatures where
  api_tests : Bool
  allow_insecure_urls : Bool
  danger_zone : Bool
  allow_invalid_certs : Bool
deriving DecidableEq, Repr

/-- `struct TokenRequestBuilder`. The `allow_http` / `allow_invalid_certs`
fields only exist under their features in Rust; here they are always
present and the feature gates are applied where the source applies them
(`TokenRequestBuilder::build`). -/
structure TokenRequestBuilder where
  api_key : Option String
  base_url : Option String
  allow_http : Bool
  allow_invalid_certs : Bool
deriving DecidableEq, Repr

/-- `TokenRequestBuilder::new()` / `Default`. -/
def TokenRequestBuilder.new : TokenRequestBuilder :=
  { api_key := none, base_url := none, allow_http := false, allow_invalid_certs := false }

/-- `TokenRequestBuilder::api_key(key)`: store the key for Bearer
authorization. -/
def TokenRequestBuilder.with_api_key (b : TokenRequestBuilder) (key : String) :
    TokenRequestBuilder :=
  { b with api_key := some key }

/-- `static IDENTITY_API_URL` (value irrelevant to the claims). -/
def IDENTITY_API_URL : String := "https://flightdeck.cplane.cloud/"

/-- `static TOKEN_API_BASE_PATH`. -/
def TOKEN_API_BASE_PATH : String := "v1/token"

/-- `struct TokenRequest`: the built identity request, with the transport
configuration that `build` baked into the `reqwest` client. -/
structure TokenRequest where
  api_key : String
  https_only : Bool
  accept_invalid_certs : Bool
  endpoint_url : String
deriving DecidableEq, Repr

/-- `TokenRequestBuilder::build`: fails with `MissingRequestApiKey` when no
api key was supplied (and only then); builds a client with
`https_only(true)` unless the `api_tests` feature or the
insecure-transport features are compiled in, and with
`danger_accept_invalid_certs` only under the invalid-certs features.
URL joining is flattened to concatenation, which the claims never
inspect. -/
def TokenRequestBuilder.build (feat : SdkFeatures) (b : TokenRequestBuilder) :
    Except SeaplaneError TokenRequest :=
  match b.api_key with
  | none => .error .missingRequestApiKey
  | some key =>
    let httpsOnly : Bool :=
      if feat.api_tests then false
      else if feat.allow_insecure_urls || feat.danger_zone then !b.allow_http
      else true
    let acceptInvalid : Bool :=
      if feat.allow_invalid_certs || feat.danger_zone then b.allow_invalid_certs
      else false
    let url : String :=
      match b.base_url with
      | some u => u ++ TOKEN_API_BASE_PATH
      | none => IDENTITY_API_URL ++ TOKEN_API_BASE_PATH
    .ok { api_key := key, https_only := httpsOnly, accept_invalid_certs := acceptInvalid,
          endpoint_url := url }

/-- An outgoing HTTP request as the identity client assembles it: method,
URL, bearer credential, and the `Accept` header that will be sent
(`reqwest` sends the default header when the code sets none, which the
repository's own mock tests pin to the wildcard). -/
structure HttpRequest where
  method : String
  url : String
  bearer : String
  accept : String
deriving DecidableEq, Repr

/-- The request `TokenRequest::access_token` sends: a POST with bearer
api-key authentication and no explicit `Accept` header, so the wildcard
default goes on the wire. -/
def TokenRequest.access_token_request (tr : TokenRequest) : HttpRequest :=
  { method := "POST", url := tr.endpoint_url, bearer := tr.api_key, accept := "*/*" }

/-- The request `TokenRequest::access_token_json` sends: identical except
that it sets `Accept: application/json` explicitly. -/
def TokenRequest.access_token_json_request (tr : TokenRequest) : HttpRequest :=
  { method := "POST", url := tr.endpoint_url, bearer := tr.api_key,
    accept := "application/json" }

/-- Modelled from the spec: `map_api_error` (in `seaplane-sdk`'s `api`
module root, which is not under the provided sources) classifies any
non-2xx identity response into an API error carrying the status and
passes 2xx responses through. -/
def map_api_error (resp : HttpResponse) : Except SeaplaneError HttpResponse :=
  if 200 ≤ resp.status && resp.status ≤ 299 then .ok resp
  else .error (.apiResponse resp.status)

/-- `Response::json::<AccessToken>()`: succeeds exactly when the body is
the JSON access-token shape `{token, tenant, subdomain}`. -/
def Body.jsonAccessToken : Body → Except SeaplaneError AccessToken
  | .tokenJson t tn sd => .ok ⟨t, tn, sd⟩
  | _ => .error .jsonDecode

/-- `TokenRequest::access_token`: send the plain-variant request and return
the successful response's body as text, never parsing it. The remote
endpoint is an oracle from requests to responses. -/
def TokenRequest.access_token (tr : TokenRequest)
    (respond : HttpRequest → HttpResponse) : Except SeaplaneError String :=
  (map_api_error (respond tr.access_token_request)).map fun r => r.body.text

/-- `TokenRequest::access_token_json`: send the JSON-variant request and
parse the successful response's body as an `AccessToken`. -/
def TokenRequest.access_token_json (tr : TokenRequest)
    (respond : HttpRequest → HttpResponse) : Except SeaplaneError AccessToken :=
  match map_api_error (respond tr.access_token_json_request) with
  | .ok r => r.body.jsonAccessToken
  | .error e => .error e

/-! ## CLI facade and retry wrapper
(`seaplane-cli/src/api/restrict.rs`, `seaplane-cli/src/macros.rs`) -/

/-- The outcome the resource endpoint produces for one call: a typed
success value (abstracted to `Nat`), an HTTP error status, or a transport
failure with no status. -/
inductive ResOutcome where
  | ok (v : Nat)
  | httpErr (status : Nat)
  | transportErr
deriving DecidableEq, Repr

/-- The network environment: an oracle for the identity endpoint (response
to its n-th call), an oracle for the resource endpoint (outcome of its
n-th call), call counters for both endpoints, a counter of SDK request
constructions (`builder.build()` completions), and the ordered log of
bearer tokens sent in the `Authorization` header of resource calls. -/
structure World where
  idResp : Nat → Except SeaplaneError AccessToken
  resResp : Nat → ResOutcome
  idCalls : Nat
  resCalls : Nat
  builds : Nat
  authLog : List String

/-- The compile-time cargo features gating the CLI (`restrict.rs` uses
`allow_insecure_urls` and `allow_invalid_certs`). -/
structure CliFeatures where
  allow_insecure_urls : Bool
  allow_invalid_certs : Bool
deriving DecidableEq, Repr

/-- The shape the CLI dispatch in `RestrictReq::refresh_inner` selects on
the SDK builder: `single_restriction(api, directory)`,
`api_range(api, context-with-optional-from)`, or
`all_range(from_api, context-with-optional-from)`. -/
inductive RequestShape where
  | singleRestriction (api directory : String)
  | apiRange (api : String) (fromDir : Option String)
  | allRange (fromApi : Option String) (fromDir : Option String)
deriving DecidableEq, Repr

/-- The SDK `RestrictRequest` as the CLI observes it (the SDK type itself
is not under the provided sources): the selected shape and the transport
and credential state the builder bound at `build()` time. -/
structure RestrictRequest where
  shape : RequestShape
  token : String
  base_url : Option String
  allow_http : Bool
  allow_invalid_certs : Bool
deriving DecidableEq, Repr

/-- `struct RestrictReq` from `seaplane-cli/src/api/restrict.rs`. -/
structure RestrictReq where
  api_key : String
  api : Option String
  directory : Option String
  from_api : Option String
  from_dir : Option String
  token : Option AccessToken
  inner : Option RestrictRequest
  identity_url : Option String
  metadata_url : Option String
  insecure_urls : Bool
  invalid_certs : Bool
deriving DecidableEq, Repr

/-- The slice of the CLI `Ctx` that `RestrictReq::new` reads. -/
structure Ctx where
  api_key : String
  identity_url : Option String
  metadata_url : Option String
  insecure_urls : Bool
  invalid_certs : Bool
deriving DecidableEq, Repr

/-- `RestrictReq::new`: copies the context, leaves every targeting
parameter, the token and the inner request unset, and — under
`#[cfg(not(feature = ...))]` — forces the insecure-transport flags to
`false` regardless of the context values. -/
def RestrictReq.new (feat : CliFeatures) (ctx : Ctx) : RestrictReq :=
  { api_key := ctx.api_key
    api := none
    directory := none
    from_api := none
    from_dir := none
    token := none
    inner := none
    identity_url := ctx.identity_url
    metadata_url := ctx.metadata_url
    insecure_urls := if feat.allow_insecure_urls then ctx.insecure_urls else false
    invalid_certs := if feat.allow_invalid_certs then ctx.invalid_certs else false }

/-- Modelled from the spec: the CLI helper `request_token` (in
`seaplane-cli/src/api`'s module root, not under the provided sources)
is the Credential Provider — it performs exactly one identity-endpoint
round trip and returns the obtained Credential or the classified error,
with no retry of its own. The identity oracle answers its `idCalls`-th
call. -/
def request_token (api_key : String) (identity_url : Option String)
    (insecure_urls invalid_certs : Bool) (w : World) :
    Except CliError AccessToken × World :=
  let _ := (api_key, identity_url, insecure_urls, invalid_certs)
  ((w.idResp w.idCalls).mapError CliError.fromErr,
   { w with idCalls := w.idCalls + 1 })

/-- `RestrictReq::refresh_token`: request a new access token and store it. -/
def RestrictReq.refresh_token (r : RestrictReq) (w : World) :
    Except CliError Unit × RestrictReq × World :=
  match request_token r.api_key r.identity_url r.insecure_urls r.invalid_certs w with
  | (.ok t, w) => (.ok (), { r with token := some t }, w)
  | (.error e, w) => (.error e, r, w)

/-- `RestrictReq::token_or_refresh`: return the cached JWT, requesting a
new one only when none is cached. -/
def RestrictReq.token_or_refresh (r : RestrictReq) (w : World) :
    Except CliError String × RestrictReq × World :=
  match r.token with
  | some t => (.ok t.token, r, w)
  | none =>
    match r.refresh_token w with
    | (.ok (), r, w) =>
      (match r.token with
       | some t => (.ok t.token, r, w)
       | none => (.error (.seaplane .transport), r, w))
    | (.error e, r, w) => (.error e, r, w)

/-- `RestrictReq::refresh_inner`: obtain the (possibly refreshed) token,
apply the feature-gated transport toggles and the base-URL override,
select the request shape from `[api, directory]` exactly as the source's
`match` does, and run the SDK `builder.build()`. The SDK builder is not
under the provided sources; modelled from the spec: when no shape was
selected (`[None, Some(_)]` falls to the source's empty `[..]` arm),
`build()` fails closed with the invalid-target-shape construction error
instead of guessing. A completed `build()` bumps the world's `builds`
counter. -/
def RestrictReq.refresh_inner (feat : CliFeatures) (r : RestrictReq) (w : World) :
    Except CliError Unit × RestrictReq × World :=
  match r.token_or_refresh w with
  | (.error e, r, w) => (.error e, r, w)
  | (.ok tok, r, w) =>
    let allowHttp : Bool := if feat.allow_insecure_urls then r.insecure_urls else false
    let allowCerts : Bool := if feat.allow_invalid_certs then r.invalid_certs else false
    let shape : Option RequestShape :=
      match r.api, r.directory with
      | some api, some dir => some (.singleRestriction api dir)
      | some api, none => some (.apiRange api r.from_dir)
      | none, none => some (.allRange r.from_api r.from_dir)
      | none, some _ => none
    match shape with
    | some s =>
      (.ok (),
       { r with inner := some { shape := s, token := tok, base_url := r.metadata_url,
                                allow_http := allowHttp, allow_invalid_certs := allowCerts } },
       { w with builds := w.builds + 1 })
    | none => (.error (CliError.fromErr .invalidTargetShape), r, w)

/-- `RestrictReq::set_api`: store the parameter, then eagerly
`refresh_inner`. -/
def RestrictReq.set_api (feat : CliFeatures) (r : RestrictReq) (api : String)
    (w : World) : Except CliError Unit × RestrictReq × World :=
  RestrictReq.refresh_inner feat { r with api := some api } w

/-- `RestrictReq::set_directory`: store the parameter, then eagerly
`refresh_inner`. -/
def RestrictReq.set_directory (feat : CliFeatures) (r : RestrictReq) (dir : String)
    (w : World) : Except CliError Unit × RestrictReq × World :=
  RestrictReq.refresh_inner feat { r with directory := some dir } w

/-- `RestrictReq::set_from_api`: store the parameter, then eagerly
`refresh_inner`. -/
def RestrictReq.set_from_api (feat : CliFeatures) (r : RestrictReq) (api : String)
    (w : World) : Except CliError Unit × RestrictReq × World :=
  RestrictReq.refresh_inner feat { r with from_api := some api } w

/-- `RestrictReq::set_from_dir`: store the parameter, then eagerly
`refresh_inner`. -/
def RestrictReq.set_from_dir (feat : CliFeatures) (r : RestrictReq) (dir : String)
    (w : World) : Except CliError Unit × RestrictReq × World :=
  RestrictReq.refresh_inner feat { r with from_dir := some dir } w

/-- Modelled from the spec: executing one of the SDK `RestrictRequest`
domain operations (the SDK implementation is not under the provided
sources) performs exactly one resource-endpoint call whose
`Authorization: Bearer` header carries the token bound in the request,
and yields the endpoint's outcome for that call. The bearer token is
appended to the world's `authLog`. -/
def RestrictRequest.execute (req : RestrictRequest) (w : World) :
    Except SeaplaneError Nat × World :=
  let outcome := w.resResp w.resCalls
  let w := { w with resCalls := w.resCalls + 1, authLog := w.authLog ++ [req.token] }
  match outcome with
  | .ok v => (.ok v, w)
  | .httpErr s => (.error (.apiResponse s), w)
  | .transportErr => (.error .transport, w)

/-- `maybe_retry!` from `seaplane-cli/src/macros.rs`, as expanded inside a
`RestrictReq` wrapper method: lazily `refresh_inner` when no inner
request exists; execute the inner request once; on an
`is_http_unauthorized` API error, store a freshly requested token in
`self.token` and execute the same inner request once more (the source
re-invokes `req.$fn(..)` on the request bound before the refresh), the
second outcome being final; any other first-attempt error is returned
immediately; all errors are mapped through `CliError::from`. -/
def RestrictReq.maybe_retry (feat : CliFeatures) (r : RestrictReq) (w : World) :
    Except CliError Nat × RestrictReq × World :=
  match (if r.inner.isNone then r.refresh_inner feat w else (.ok (), r, w)) with
  | (.error e, r, w) => (.error e, r, w)
  | (.ok (), r, w) =>
    match r.inner with
    | none => (.error (.seaplane .transport), r, w)
    | some req =>
      match RestrictRequest.execute req w with
      | (.ok v, w) => (.ok v, r, w)
      | (.error e, w) =>
        if e.is_http_unauthorized then
          match request_token r.api_key r.identity_url r.insecure_urls r.invalid_certs w with
          | (.error e2, w) => (.error e2, r, w)
          | (.ok t, w) =>
            let r := { r with token := some t }
            match RestrictRequest.execute req w with
            | (.ok v, w) => (.ok v, r, w)
            | (.error e3, w) => (.error (CliError.fromErr e3), r, w)
        else
          (.error (CliError.fromErr e), r, w)

/-! ## Concrete scenario inputs used by the claims -/

/-- The feature configuration of a default CLI build: both
insecure-transport features disabled. -/
def noFeatures : CliFeatures := ⟨false, false⟩

/-- The feature configuration of a default SDK build: all transport- and
test-related features disabled. -/
def noSdkFeatures : SdkFeatures := ⟨false, false, false, false⟩

/-- A credential held before re-authentication. -/
def tokOld : AccessToken := { token := "old-token", tenant := "tnt", subdomain := "sub" }

/-- The fresh credential the identity endpoint hands out. -/
def tokNew : AccessToken := { token := "new-token", tenant := "tnt", subdomain := "sub" }

/-- An inner SDK request already built and bound to the old credential. -/
def reqOld : RestrictRequest :=
  { shape := .allRange none none, token := "old-token", base_url := none,
    allow_http := false, allow_invalid_certs := false }

/-- A context with no URL overrides and secure transport. -/
def ctx0 : Ctx :=
  { api_key := "key", identity_url := none, metadata_url := none,
    insecure_urls := false, invalid_certs := false }

/-- A facade whose token and inner request are already cached (`tokOld` /
`reqOld`). -/
def builtReq : RestrictReq :=
  { api_key := "key", api := none, directory := none, from_api := none,
    from_dir := none, token := some tokOld, inner := some reqOld,
    identity_url := none, metadata_url := none,
    insecure_urls := false, invalid_certs := false }

/-- A world whose resource endpoint answers 401 on the first call and
succeeds (value 7) afterwards, and whose identity endpoint always hands
out `tokNew`. -/
def world401ok : World :=
  { idResp := fun _ => .ok tokNew
    resResp := fun n => if n = 0 then .httpErr 401 else .ok 7
    idCalls := 0, resCalls := 0, builds := 0, authLog := [] }

/-- A world whose resource endpoint always answers 401 and whose identity
endpoint always hands out `tokNew`. -/
def worldAlways401 : World :=
  { idResp := fun _ => .ok tokNew
    resResp := fun _ => .httpErr 401
    idCalls := 0, resCalls := 0, builds := 0, authLog := [] }

/-- A world where every resource call succeeds (value 7) and the identity
endpoint always hands out `tokNew`. -/
def worldAllOk : World :=
  { idResp := fun _ => .ok tokNew
    resResp := fun _ => .ok 7
    idCalls := 0, resCalls := 0, builds := 0, authLog := [] }

/-- A world whose resource endpoint always answers 404 and whose identity
endpoint always hands out `tokNew`. -/
def world404 : World :=
  { idResp := fun _ => .ok tokNew
    resResp := fun _ => .httpErr 404
    idCalls := 0, resCalls := 0, builds := 0, authLog := [] }

/-- A world whose resource endpoint always fails at the transport level
(no HTTP status) and whose identity endpoint always hands out `tokNew`. -/
def worldDown : World :=
  { idResp := fun _ => .ok tokNew
    resResp := fun _ => .transportErr
    idCalls := 0, resCalls := 0, builds := 0, authLog := [] }

/-- The inner request `refresh_inner` constructs for a facade `r`, a shape
`s` and a bound token `tok`: base URL and feature-gated transport toggles
exactly as `refresh_inner` applies them. -/
def builtInner (feat : CliFeatures) (r : RestrictReq) (s : RequestShape) (tok : String) :
    RestrictRequest :=
  { shape := s, token := tok, base_url := r.metadata_url,
    allow_http := if feat.allow_insecure_urls then r.insecure_urls else false,
    allow_invalid_certs := if feat.allow_invalid_certs then r.invalid_certs else false }

/-- The P4-style scenario driver: starting from a fresh facade, set the
api, directory and from-dir Targeting Parameters in sequence (no domain
operation), returning the resulting facade state and world, or the first
error. -/
def afterThreeSetters (feat : CliFeatures) (ctx : Ctx) (a d f : String) (w : World) :
    Except CliError Unit × RestrictReq × World :=
  match RestrictReq.set_api feat (RestrictReq.new feat ctx) a w with
  | (.error e, r, w) => (.error e, r, w)
  | (.ok (), r, w) =>
    match RestrictReq.set_directory feat r d w with
    | (.error e, r, w) => (.error e, r, w)
    | (.ok (), r, w) => RestrictReq.set_from_dir feat r f w

/-! ## Theorems for the claims -/

/-- C1: the claim says that on a 401 the retry wrapper rebuilds the Bound
Request with the freshly obtained Credential before re-executing, so the
old token never appears in a later `Authorization` header. The code
violates this: on the failing input (built facade bound to `old-token`,
resource endpoint answering 401 then 200, identity endpoint handing out
`new-token`) the re-authentication succeeds and is stored in
`self.token`, yet the retried call's `Authorization` header — the second
entry of the bearer log — still carries `old-token`. -/
theorem C1_retry_reuses_old_token :
    (RestrictReq.maybe_retry noFeatures builtReq world401ok).1 = .ok 7 ∧
    (RestrictReq.maybe_retry noFeatures builtReq world401ok).2.1.token = some tokNew ∧
    (RestrictReq.maybe_retry noFeatures builtReq world401ok).2.2.idCalls = 1 ∧
    (RestrictReq.maybe_retry noFeatures builtReq world401ok).2.2.authLog =
      ["old-token", "old-token"] ∧
    tokNew.token ≠ "old-token" := by
  refine ⟨rfl, rfl, rfl, rfl, by decide⟩

/-- C2 counterexample: the claim says a targeting-parameter mutator only
invalidates the cached Bound Request, triggers zero network calls and
defers rebuilding. On a fresh facade a single `set_api` already performs
one identity-endpoint network call and one Bound Request construction. -/
theorem C2_setter_triggers_network_call :
    (RestrictReq.set_api noFeatures (RestrictReq.new noFeatures ctx0) "api-1"
        worldAllOk).2.2.idCalls = 1 ∧
    (RestrictReq.set_api noFeatures (RestrictReq.new noFeatures ctx0) "api-1"
        worldAllOk).2.2.builds = 1 ∧
    (RestrictReq.set_api noFeatures (RestrictReq.new noFeatures ctx0) "api-1"
        worldAllOk).2.1.inner.isSome = true := by
  refine ⟨rfl, rfl, rfl⟩

/-- C7 counterexample: the claim says an empty api key fails at
construction time with the missing-credential error; the builder only
checks for absence, so an empty-string key builds successfully. -/
theorem C7_empty_api_key_builds :
    TokenRequestBuilder.build noSdkFeatures (TokenRequestBuilder.new.with_api_key "") =
      .ok { api_key := "", https_only := true, accept_invalid_certs := false,
            endpoint_url := IDENTITY_API_URL ++ TOKEN_API_BASE_PATH } ∧
    TokenRequestBuilder.build noSdkFeatures (TokenRequestBuilder.new.with_api_key "") ≠
      .error SeaplaneError.missingRequestApiKey :=
  ⟨rfl, fun h => Except.noConfusion h⟩

/-- C7 (amended): building a token request with the api key absent fails at
construction time — before any network activity, which the pure builder
cannot perform — with the missing-credential error, and this is the only
way `build` fails: with any key present (empty included) it returns a
built request carrying that key. -/
theorem C7_missing_key_fails_at_construction :
    (∀ (feat : SdkFeatures) (b : TokenRequestBuilder), b.api_key = none →
      b.build feat = .error SeaplaneError.missingRequestApiKey) ∧
    (∀ (feat : SdkFeatures) (b : TokenRequestBuilder) (key : String),
      b.api_key = some key →
      ∃ tr : TokenRequest, b.build feat = .ok tr ∧ tr.api_key = key) := by
  constructor
  · intro feat b h
    simp [TokenRequestBuilder.build, h]
  · intro feat b key h
    simp only [TokenRequestBuilder.build, h]
    exact ⟨_, rfl, rfl⟩

/-- Witness for C7: the default builder (no api key) fails with the
missing-key error. -/
theorem C7_missing_key_witness :
    TokenRequestBuilder.build noSdkFeatures TokenRequestBuilder.new =
      .error SeaplaneError.missingRequestApiKey :=
  C7_missing_key_fails_at_construction.1 noSdkFeatures TokenRequestBuilder.new rfl

/-- C8: with the insecure-transport features compiled out, the CLI facade
constructor forces `insecure_urls`/`invalid_certs` to `false` regardless
of the context, so two contexts differing only in those inputs yield
identical facade states; likewise the SDK token-request builder ignores
its `allow_http`/`allow_invalid_certs` inputs and always builds an
HTTPS-only client that rejects invalid certificates. -/
theorem C8_transport_safety_floor :
    (∀ ctx1 ctx2 : Ctx,
      ctx1.api_key = ctx2.api_key → ctx1.identity_url = ctx2.identity_url →
      ctx1.metadata_url = ctx2.metadata_url →
      RestrictReq.new noFeatures ctx1 = RestrictReq.new noFeatures ctx2) ∧
    (∀ ctx : Ctx, (RestrictReq.new noFeatures ctx).insecure_urls = false ∧
      (RestrictReq.new noFeatures ctx).invalid_certs = false) ∧
    (∀ b1 b2 : TokenRequestBuilder,
      b1.api_key = b2.api_key → b1.base_url = b2.base_url →
      b1.build noSdkFeatures = b2.build noSdkFeatures) ∧
    (∀ (b : TokenRequestBuilder) (tr : TokenRequest),
      b.build noSdkFeatures = .ok tr →
      tr.https_only = true ∧ tr.accept_invalid_certs = false) := by
  refine ⟨?_, ?_, ?_, ?_⟩
  · intro ctx1 ctx2 h1 h2 h3
    simp [RestrictReq.new, noFeatures, h1, h2, h3]
  · intro ctx
    exact ⟨rfl, rfl⟩
  · intro b1 b2 hk hb
    simp [TokenRequestBuilder.build, hk, hb, noSdkFeatures]
  · intro b tr h
    rcases hb : b.api_key with _ | key
    · simp [TokenRequestBuilder.build, hb] at h
    · simp [TokenRequestBuilder.build, hb, noSdkFeatures] at h
      rw [← h]
      exact ⟨rfl, rfl⟩

/-- Witness for C8: two concrete contexts differing only in the insecure
flags produce the same facade, and a concrete build is HTTPS-only with
certificate validation on. -/
theorem C8_transport_safety_floor_witness :
    RestrictReq.new noFeatures ctx0 =
      RestrictReq.new noFeatures { ctx0 with insecure_urls := true, invalid_certs := true } ∧
    ({ api_key := "key", https_only := true, accept_invalid_certs := false,
       endpoint_url := IDENTITY_API_URL ++ TOKEN_API_BASE_PATH } : TokenRequest).https_only
      = true ∧
    ({ api_key := "key", https_only := true, accept_invalid_certs := false,
       endpoint_url := IDENTITY_API_URL ++ TOKEN_API_BASE_PATH } : TokenRequest).accept_invalid_certs
      = false :=
  ⟨C8_transport_safety_floor.1 ctx0
      { ctx0 with insecure_urls := true, invalid_certs := true } rfl rfl rfl,
   (C8_transport_safety_floor.2.2.2 (TokenRequestBuilder.new.with_api_key "key") _ rfl).1,
   (C8_transport_safety_floor.2.2.2 (TokenRequestBuilder.new.with_api_key "key") _ rfl).2⟩

/-- C9: the identity endpoint's two response-format variants are selected
solely by the `Accept` header the caller's method chooses — the two
outgoing requests agree on method, URL and bearer and differ only in
`Accept` (`*/*` for the plain variant, `application/json` for the JSON
variant); the plain variant returns a 2xx response's body as text without
parsing it, while the JSON variant parses a 2xx JSON body
`{token, tenant, subdomain}` into a structured `AccessToken`. -/
theorem C9_accept_header_selects_variant :
    (∀ tr : TokenRequest,
      tr.access_token_request.accept = "*/*" ∧
      tr.access_token_json_request.accept = "application/json" ∧
      tr.access_token_request.method = tr.access_token_json_request.method ∧
      tr.access_token_request.url = tr.access_token_json_request.url ∧
      tr.access_token_request.bearer = tr.access_token_json_request.bearer) ∧
    (∀ (tr : TokenRequest) (respond : HttpRequest → HttpResponse),
      200 ≤ (respond tr.access_token_request).status →
      (respond tr.access_token_request).status ≤ 299 →
      tr.access_token respond = .ok (respond tr.access_token_request).body.text) ∧
    (∀ (tr : TokenRequest) (respond : HttpRequest → HttpResponse)
        (st : Nat) (t tn sd : String),
      respond tr.access_token_json_request = { status := st, body := .tokenJson t tn sd } →
      200 ≤ st → st ≤ 299 →
      tr.access_token_json respond =
        .ok { token := t, tenant := tn, subdomain := sd }) := by
  refine ⟨?_, ?_, ?_⟩
  · intro tr
    exact ⟨rfl, rfl, rfl, rfl, rfl⟩
  · intro tr respond h1 h2
    simp [TokenRequest.access_token, map_api_error, h1, h2, Except.map]
  · intro tr respond st t tn sd h h1 h2
    simp [TokenRequest.access_token_json, map_api_error, h, h1, h2, Body.jsonAccessToken]

/-- Witness for C9: with a concrete responder that answers 201 with a raw
token body on the plain request and 201 with the JSON body on the JSON
request, the two variants return the token and the structured
credential. -/
theorem C9_accept_header_witness :
    ({ api_key := "abc123", https_only := true, accept_invalid_certs := false,
       endpoint_url := "u" } : TokenRequest).access_token
        (fun rq => if rq.accept = "*/*" then { status := 201, body := .raw "abc.123.def" }
                   else { status := 201, body := .tokenJson "abc.123.def" "tnt" "pequod" }) =
      .ok "abc.123.def" ∧
    ({ api_key := "abc123", https_only := true, accept_invalid_certs := false,
       endpoint_url := "u" } : TokenRequest).access_token_json
        (fun rq => if rq.accept = "*/*" then { status := 201, body := .raw "abc.123.def" }
                   else { status := 201, body := .tokenJson "abc.123.def" "tnt" "pequod" }) =
      .ok { token := "abc.123.def", tenant := "tnt", subdomain := "pequod" } :=
  ⟨C9_accept_header_selects_variant.2.1 _ _ (by decide) (by decide),
   C9_accept_header_selects_variant.2.2 _ _ 201 "abc.123.def" "tnt" "pequod"
     (by decide) (by decide) (by decide)⟩

/-- C10 counterexample: the claim says every non-2xx response whose body is
not the JSON error shape yields the JSON-decoding error; a 302 redirect
response (non-2xx) with a raw body is in fact passed through unchanged,
because `error_for_status_ref` only fires for 400–599. -/
theorem C10_redirect_passes_through :
    map_error { status := 302, body := .raw "x" } =
      .ok { status := 302, body := .raw "x" } ∧
    map_error { status := 302, body := .raw "x" } ≠ .error .jsonDecode :=
  ⟨rfl, fun h => Except.noConfusion h⟩

set_option maxRecDepth 4000

/-- C10 (amended): for client/server-error statuses (400–599) the locks
error mapper returns the classified `LocksError` exactly when the body
parses as `{status, title, detail?}` (kind per the status table, any
unlisted status preserved raw) and the JSON-decoding error otherwise; any
response outside 400–599 (2xx in particular) is returned unchanged. -/
theorem C10_map_error_classification :
    (∀ resp : HttpResponse, resp.isErrorStatus = false → map_error resp = .ok resp) ∧
    (∀ resp : HttpResponse, 200 ≤ resp.status → resp.status ≤ 299 →
      map_error resp = .ok resp) ∧
    (∀ (st s : Nat) (t : String) (d : Option String), 400 ≤ st → st ≤ 599 →
      map_error { status := st, body := .errJson s t d } =
        .error (.locksError { status := s, title := t, detail := d }
          (LocksErrorKind.fromStatus (some st)))) ∧
    (∀ (st : Nat) (b : Body), 400 ≤ st → st ≤ 599 →
      b.jsonErrorResponse = .error SeaplaneError.jsonDecode →
      map_error { status := st, body := b } = .error SeaplaneError.jsonDecode) ∧
    (LocksErrorKind.fromStatus (some 400) = .invalidRequest ∧
     LocksErrorKind.fromStatus (some 401) = .notLoggedIn ∧
     LocksErrorKind.fromStatus (some 404) = .lockNotFound ∧
     LocksErrorKind.fromStatus (some 409) = .lockAlreadyHeld ∧
     LocksErrorKind.fromStatus (some 500) = .internalError ∧
     LocksErrorKind.fromStatus (some 503) = .serviceUnavailable) ∧
    (∀ c : Nat, c < 600 → 400 ≤ c →
      c ∉ ([400, 401, 404, 409, 500, 503] : List Nat) →
      LocksErrorKind.fromStatus (some c) = .unimplementedHttpStatus c) := by
  refine ⟨?_, ?_, ?_, ?_, ⟨rfl, rfl, rfl, rfl, rfl, rfl⟩, ?_⟩
  · intro resp h
    simp [map_error, h]
  · intro resp h1 h2
    have h : resp.isErrorStatus = false := by
      simp only [HttpResponse.isErrorStatus, Bool.and_eq_false_iff, decide_eq_false_iff_not]
      omega
    simp [map_error, h]
  · intro st s t d h1 h2
    have h : ({ status := st, body := .errJson s t d } : HttpResponse).isErrorStatus = true := by
      simp only [HttpResponse.isErrorStatus, Bool.and_eq_true, decide_eq_true_eq]
      omega
    simp [map_error, h, Body.jsonErrorResponse]
  · intro st b h1 h2 hb
    have h : ({ status := st, body := b } : HttpResponse).isErrorStatus = true := by
      simp only [HttpResponse.isErrorStatus, Bool.and_eq_true, decide_eq_true_eq]
      omega
    simp [map_error, h, hb]
  · decide

/-- Witness for C10: a 2xx response passes through, a 409 with an error
body is classified as already-held, and a 418 with a raw body becomes the
JSON-decoding error. -/
theorem C10_map_error_witness :
    map_error { status := 200, body := .raw "ok" } =
      .ok { status := 200, body := .raw "ok" } ∧
    map_error { status := 409, body := .errJson 409 "held" none } =
      .error (.locksError { status := 409, title := "held", detail := none }
        LocksErrorKind.lockAlreadyHeld) ∧
    map_error { status := 418, body := .raw "teapot" } =
      .error SeaplaneError.jsonDecode :=
  ⟨C10_map_error_classification.2.1 _ (by decide) (by decide),
   C10_map_error_classification.2.2.1 409 409 "held" none (by decide) (by decide),
   C10_map_error_classification.2.2.2.1 418 (.raw "teapot") (by decide) (by decide) rfl⟩

/-- C6: a first attempt that fails with any error other than an HTTP-401
authentication rejection — another HTTP status or a transport failure —
is returned immediately, unmodified apart from the `CliError::from`
mapping: the facade state is untouched, exactly one resource-endpoint
call was made, and no identity-endpoint call occurred (the final world
differs from the initial one only by that single logged resource
call). -/
theorem C6_non_auth_errors_not_retried :
    (∀ (feat : CliFeatures) (r : RestrictReq) (req : RestrictRequest) (w : World) (s : Nat),
      r.inner = some req → w.resResp w.resCalls = ResOutcome.httpErr s → s ≠ 401 →
      RestrictReq.maybe_retry feat r w =
        (.error (CliError.fromErr (.apiResponse s)), r,
         { w with resCalls := w.resCalls + 1, authLog := w.authLog ++ [req.token] })) ∧
    (∀ (feat : CliFeatures) (r : RestrictReq) (req : RestrictRequest) (w : World),
      r.inner = some req → w.resResp w.resCalls = ResOutcome.transportErr →
      RestrictReq.maybe_retry feat r w =
        (.error (CliError.fromErr .transport), r,
         { w with resCalls := w.resCalls + 1, authLog := w.authLog ++ [req.token] })) := by
  constructor
  · intro feat r req w s hIn hres hs
    simp [RestrictReq.maybe_retry, hIn, RestrictRequest.execute, hres,
          SeaplaneError.is_http_unauthorized, hs]
  · intro feat r req w hIn hres
    simp [RestrictReq.maybe_retry, hIn, RestrictRequest.execute, hres,
          SeaplaneError.is_http_unauthorized]

/-- Witness for C6: on a built facade, a 404 answer and a transport failure
are both surfaced at once with one resource call and no identity call. -/
theorem C6_non_auth_witness :
    (RestrictReq.maybe_retry noFeatures builtReq world404).1 =
      .error (CliError.fromErr (.apiResponse 404)) ∧
    (RestrictReq.maybe_retry noFeatures builtReq world404).2.2.resCalls = 1 ∧
    (RestrictReq.maybe_retry noFeatures builtReq world404).2.2.idCalls = 0 ∧
    (RestrictReq.maybe_retry noFeatures builtReq worldDown).1 =
      .error (CliError.fromErr .transport) := by
  have h1 := C6_non_auth_errors_not_retried.1 noFeatures builtReq reqOld world404 404
    rfl rfl (by decide)
  have h2 := C6_non_auth_errors_not_retried.2 noFeatures builtReq reqOld worldDown rfl rfl
  rw [h1, h2]
  exact ⟨rfl, rfl, rfl, rfl⟩

/-- C5: the Request Builder's shape dispatch in `refresh_inner` (with a
cached token, so no identity call is involved): api and directory both
present select the single-resource shape; api alone selects the
api-collection range shape carrying the optional from-dir cursor; neither
present selects the global range shape carrying the optional from-api and
from-dir cursors; and the remaining combination — directory set without
api — falls through the source's empty match arm and fails closed at
`build()` with the invalid-target-shape construction error, leaving the
facade unchanged. -/
theorem C5_shape_dispatch :
    (∀ (feat : CliFeatures) (r : RestrictReq) (w : World) (t : AccessToken) (a d : String),
      r.token = some t → r.api = some a → r.directory = some d →
      RestrictReq.refresh_inner feat r w =
        (.ok (),
         { r with inner := some (builtInner feat r (.singleRestriction a d) t.token) },
         { w with builds := w.builds + 1 })) ∧
    (∀ (feat : CliFeatures) (r : RestrictReq) (w : World) (t : AccessToken) (a : String),
      r.token = some t → r.api = some a → r.directory = none →
      RestrictReq.refresh_inner feat r w =
        (.ok (),
         { r with inner := some (builtInner feat r (.apiRange a r.from_dir) t.token) },
         { w with builds := w.builds + 1 })) ∧
    (∀ (feat : CliFeatures) (r : RestrictReq) (w : World) (t : AccessToken),
      r.token = some t → r.api = none → r.directory = none →
      RestrictReq.refresh_inner feat r w =
        (.ok (),
         { r with inner := some (builtInner feat r (.allRange r.from_api r.from_dir) t.token) },
         { w with builds := w.builds + 1 })) ∧
    (∀ (feat : CliFeatures) (r : RestrictReq) (w : World) (t : AccessToken) (d : String),
      r.token = some t → r.api = none → r.directory = some d →
      RestrictReq.refresh_inner feat r w =
        (.error (CliError.fromErr .invalidTargetShape), r, w)) := by
  refine ⟨?_, ?_, ?_, ?_⟩
  · intro feat r w t a d ht ha hd
    simp [RestrictReq.refresh_inner, RestrictReq.token_or_refresh, builtInner, ht, ha, hd]
  · intro feat r w t a ht ha hd
    simp [RestrictReq.refresh_inner, RestrictReq.token_or_refresh, builtInner, ht, ha, hd]
  · intro feat r w t ht ha hd
    simp [RestrictReq.refresh_inner, RestrictReq.token_or_refresh, builtInner, ht, ha, hd]
  · intro feat r w t d ht ha hd
    simp [RestrictReq.refresh_inner, RestrictReq.token_or_refresh, ht, ha, hd]

/-- Witness for C5: on a facade with a cached token, each of the four
parameter combinations yields its shape — or the fail-closed error for
directory-without-api. -/
theorem C5_shape_witness :
    (RestrictReq.refresh_inner noFeatures
        { builtReq with api := some "a", directory := some "d" } worldAllOk).2.1.inner =
      some { shape := .singleRestriction "a" "d", token := "old-token", base_url := none,
             allow_http := false, allow_invalid_certs := false } ∧
    (RestrictReq.refresh_inner noFeatures
        { builtReq with api := some "a" } worldAllOk).2.1.inner =
      some { shape := .apiRange "a" none, token := "old-token", base_url := none,
             allow_http := false, allow_invalid_certs := false } ∧
    (RestrictReq.refresh_inner noFeatures builtReq worldAllOk).2.1.inner =
      some { shape := .allRange none none, token := "old-token", base_url := none,
             allow_http := false, allow_invalid_certs := false } ∧
    (RestrictReq.refresh_inner noFeatures
        { builtReq with directory := some "d" } worldAllOk).1 =
      .error (CliError.fromErr .invalidTargetShape) := by
  have h1 := C5_shape_dispatch.1 noFeatures
    { builtReq with api := some "a", directory := some "d" } worldAllOk tokOld "a" "d"
    rfl rfl rfl
  have h2 := C5_shape_dispatch.2.1 noFeatures
    { builtReq with api := some "a" } worldAllOk tokOld "a" rfl rfl rfl
  have h3 := C5_shape_dispatch.2.2.1 noFeatures builtReq worldAllOk tokOld rfl rfl rfl
  have h4 := C5_shape_dispatch.2.2.2 noFeatures
    { builtReq with directory := some "d" } worldAllOk tokOld "d" rfl rfl rfl
  rw [h1, h2, h3, h4]
  exact ⟨rfl, rfl, rfl, rfl⟩

/-- C3 counterexample: the claim says an always-401 endpoint makes an
operation fail after exactly two resource-endpoint calls and one
identity-endpoint call, for every operation invoked through the wrapper.
On a fresh facade (no cached token, no built request) the wrapper's lazy
first build performs an identity call of its own, so two identity calls
are observed. -/
theorem C3_fresh_facade_two_identity_calls :
    (RestrictReq.maybe_retry noFeatures (RestrictReq.new noFeatures ctx0)
        worldAlways401).2.2.idCalls = 2 ∧
    (RestrictReq.maybe_retry noFeatures (RestrictReq.new noFeatures ctx0)
        worldAlways401).2.2.resCalls = 2 := by
  exact ⟨rfl, rfl⟩

/-- C3 (amended): against an always-401 resource endpoint an operation
through the retry wrapper fails with the 401-derived authentication error
after exactly two resource-endpoint calls, and the retry logic performs
exactly one re-authentication identity call; when the Bound Request is
already built that is the only identity call, while a fresh facade incurs
one additional identity call for the lazy first build. The second 401 is
final — it is returned, not retried. -/
theorem C3_always_401_two_attempts :
    (∀ (feat : CliFeatures) (r : RestrictReq) (req : RestrictRequest) (w : World)
        (t : AccessToken),
      r.inner = some req →
      (∀ n, w.resResp n = ResOutcome.httpErr 401) →
      w.idResp w.idCalls = Except.ok t →
      RestrictReq.maybe_retry feat r w =
        (.error (CliError.fromErr (.apiResponse 401)), { r with token := some t },
         { w with resCalls := w.resCalls + 1 + 1, idCalls := w.idCalls + 1,
                  authLog := w.authLog ++ [req.token] ++ [req.token] })) ∧
    (∀ (feat : CliFeatures) (ctx : Ctx) (w : World) (t t2 : AccessToken),
      (∀ n, w.resResp n = ResOutcome.httpErr 401) →
      w.idResp w.idCalls = Except.ok t →
      w.idResp (w.idCalls + 1) = Except.ok t2 →
      (RestrictReq.maybe_retry feat (RestrictReq.new feat ctx) w).1 =
        .error (CliError.fromErr (.apiResponse 401)) ∧
      (RestrictReq.maybe_retry feat (RestrictReq.new feat ctx) w).2.2.resCalls =
        w.resCalls + 2 ∧
      (RestrictReq.maybe_retry feat (RestrictReq.new feat ctx) w).2.2.idCalls =
        w.idCalls + 2) := by
  constructor
  · intro feat r req w t hIn h401 hid
    simp [RestrictReq.maybe_retry, hIn, RestrictRequest.execute, h401,
          SeaplaneError.is_http_unauthorized, request_token, hid, Except.mapError,
          CliError.fromErr]
  · intro feat ctx w t t2 h401 hid hid2
    refine ⟨?_, ?_, ?_⟩ <;>
      simp [RestrictReq.maybe_retry, RestrictReq.new, RestrictReq.refresh_inner,
            RestrictReq.token_or_refresh, RestrictReq.refresh_token, request_token,
            RestrictRequest.execute, SeaplaneError.is_http_unauthorized, h401, hid, hid2,
            Except.mapError, CliError.fromErr]

/-- Witness for C3: on an already-built facade against the always-401
world, the wrapper fails with the 401 error after two resource calls and
one identity call. -/
theorem C3_always_401_witness :
    RestrictReq.maybe_retry noFeatures builtReq worldAlways401 =
      (.error (CliError.fromErr (.apiResponse 401)), { builtReq with token := some tokNew },
       { worldAlways401 with resCalls := 2, idCalls := 1,
                             authLog := ["old-token", "old-token"] }) := by
  have h := C3_always_401_two_attempts.1 noFeatures builtReq reqOld worldAlways401 tokNew
    rfl (fun _ => rfl) rfl
  rw [h]
  rfl

/-- C4 counterexample: the claim says a 401-then-success operation is
observed with exactly one identity-endpoint call; on a fresh facade the
lazy first build performs an extra identity call, so two are observed
even though the operation succeeds after two resource calls. -/
theorem C4_fresh_facade_two_identity_calls :
    (RestrictReq.maybe_retry noFeatures (RestrictReq.new noFeatures ctx0)
        world401ok).1 = .ok 7 ∧
    (RestrictReq.maybe_retry noFeatures (RestrictReq.new noFeatures ctx0)
        world401ok).2.2.idCalls = 2 ∧
    (RestrictReq.maybe_retry noFeatures (RestrictReq.new noFeatures ctx0)
        world401ok).2.2.resCalls = 2 := by
  exact ⟨rfl, rfl, rfl⟩

/-- C4 (amended): when the first resource call is rejected with 401, the
identity call yields a fresh token and the single re-executed attempt
succeeds, the wrapper returns the second attempt's typed result with
exactly two resource-endpoint calls; the retry logic performs exactly one
re-authentication identity call — the only one when the Bound Request was
already built, with one additional identity call when the fresh facade
lazily builds first. -/
theorem C4_retry_once_success :
    (∀ (feat : CliFeatures) (r : RestrictReq) (req : RestrictRequest) (w : World)
        (t : AccessToken) (v : Nat),
      r.inner = some req →
      w.resResp w.resCalls = ResOutcome.httpErr 401 →
      w.idResp w.idCalls = Except.ok t →
      w.resResp (w.resCalls + 1) = ResOutcome.ok v →
      RestrictReq.maybe_retry feat r w =
        (.ok v, { r with token := some t },
         { w with resCalls := w.resCalls + 1 + 1, idCalls := w.idCalls + 1,
                  authLog := w.authLog ++ [req.token] ++ [req.token] })) ∧
    (∀ (feat : CliFeatures) (ctx : Ctx) (w : World) (t t2 : AccessToken) (v : Nat),
      w.resResp w.resCalls = ResOutcome.httpErr 401 →
      w.idResp w.idCalls = Except.ok t →
      w.idResp (w.idCalls + 1) = Except.ok t2 →
      w.resResp (w.resCalls + 1) = ResOutcome.ok v →
      (RestrictReq.maybe_retry feat (RestrictReq.new feat ctx) w).1 = .ok v ∧
      (RestrictReq.maybe_retry feat (RestrictReq.new feat ctx) w).2.2.resCalls =
        w.resCalls + 2 ∧
      (RestrictReq.maybe_retry feat (RestrictReq.new feat ctx) w).2.2.idCalls =
        w.idCalls + 2) := by
  constructor
  · intro feat r req w t v hIn h1 hid h2
    simp [RestrictReq.maybe_retry, hIn, RestrictRequest.execute, h1, h2,
          SeaplaneError.is_http_unauthorized, request_token, hid, Except.mapError,
          CliError.fromErr]
  · intro feat ctx w t t2 v h1 hid hid2 h2
    refine ⟨?_, ?_, ?_⟩ <;>
      simp [RestrictReq.maybe_retry, RestrictReq.new, RestrictReq.refresh_inner,
            RestrictReq.token_or_refresh, RestrictReq.refresh_token, request_token,
            RestrictRequest.execute, SeaplaneError.is_http_unauthorized, h1, h2, hid, hid2,
            Except.mapError, CliError.fromErr]

/-- Witness for C4: on an already-built facade against the 401-then-200
world, the wrapper succeeds with the second attempt's result after two
resource calls and one identity call. -/
theorem C4_retry_once_witness :
    RestrictReq.maybe_retry noFeatures builtReq world401ok =
      (.ok 7, { builtReq with token := some tokNew },
       { world401ok with resCalls := 2, idCalls := 1,
                         authLog := ["old-token", "old-token"] }) := by
  have h := C4_retry_once_success.1 noFeatures builtReq reqOld world401ok tokNew 7
    rfl rfl rfl rfl
  rw [h]
  rfl

/-- C2 (amended): each targeting-parameter mutator eagerly rebuilds the
Bound Request — one construction per mutator call — requesting a token
from the identity service only when none is cached. Starting from a fresh
facade, setting three Targeting Parameters in sequence performs exactly
one identity-endpoint call and three Bound Request constructions and no
resource call; the Bound Request then in place uses the final parameter
values, and invoking an operation afterwards performs no additional
construction and exactly one resource call returning its result. -/
theorem C2_eager_rebuild_semantics (feat : CliFeatures) (ctx : Ctx) (w : World)
    (t : AccessToken) (v : Nat)
    (hid : w.idResp w.idCalls = Except.ok t)
    (hres : w.resResp w.resCalls = ResOutcome.ok v) :
    (afterThreeSetters feat ctx "a" "d" "f" w).1 = .ok () ∧
    (afterThreeSetters feat ctx "a" "d" "f" w).2.2.idCalls = w.idCalls + 1 ∧
    (afterThreeSetters feat ctx "a" "d" "f" w).2.2.resCalls = w.resCalls ∧
    (afterThreeSetters feat ctx "a" "d" "f" w).2.2.builds = w.builds + 3 ∧
    ((afterThreeSetters feat ctx "a" "d" "f" w).2.1.inner.map RestrictRequest.shape) =
      some (.singleRestriction "a" "d") ∧
    ((afterThreeSetters feat ctx "a" "d" "f" w).2.1.inner.map RestrictRequest.token) =
      some t.token ∧
    (RestrictReq.maybe_retry feat (afterThreeSetters feat ctx "a" "d" "f" w).2.1
        (afterThreeSetters feat ctx "a" "d" "f" w).2.2).1 = .ok v ∧
    (RestrictReq.maybe_retry feat (afterThreeSetters feat ctx "a" "d" "f" w).2.1
        (afterThreeSetters feat ctx "a" "d" "f" w).2.2).2.2.builds = w.builds + 3 ∧
    (RestrictReq.maybe_retry feat (afterThreeSetters feat ctx "a" "d" "f" w).2.1
        (afterThreeSetters feat ctx "a" "d" "f" w).2.2).2.2.idCalls = w.idCalls + 1 ∧
    (RestrictReq.maybe_retry feat (afterThreeSetters feat ctx "a" "d" "f" w).2.1
        (afterThreeSetters feat ctx "a" "d" "f" w).2.2).2.2.resCalls = w.resCalls + 1 := by
  refine ⟨?_, ?_, ?_, ?_, ?_, ?_, ?_, ?_, ?_, ?_⟩ <;>
    (simp [afterThreeSetters, RestrictReq.set_api, RestrictReq.set_directory,
           RestrictReq.set_from_dir, RestrictReq.new, RestrictReq.refresh_inner,
           RestrictReq.token_or_refresh, RestrictReq.refresh_token, request_token,
           RestrictReq.maybe_retry, RestrictRequest.execute, hid, hres,
           Except.mapError, CliError.fromErr])

/-- Witness for C2 (amended): the concrete three-setter run from a fresh
facade performs one identity call and three constructions, and the
operation afterwards succeeds with one resource call and no further
construction. -/
theorem C2_eager_rebuild_witness :
    (afterThreeSetters noFeatures ctx0 "a" "d" "f" worldAllOk).1 = .ok () ∧
    (afterThreeSetters noFeatures ctx0 "a" "d" "f" worldAllOk).2.2.idCalls = 1 ∧
    (afterThreeSetters noFeatures ctx0 "a" "d" "f" worldAllOk).2.2.builds = 3 ∧
    (RestrictReq.maybe_retry noFeatures
        (afterThreeSetters noFeatures ctx0 "a" "d" "f" worldAllOk).2.1
        (afterThreeSetters noFeatures ctx0 "a" "d" "f" worldAllOk).2.2).1 = .ok 7 := by
  have h := C2_eager_rebuild_semantics noFeatures ctx0 worldAllOk tokNew 7 rfl rfl
  exact ⟨h.1, h.2.1, h.2.2.2.1, h.2.2.2.2.2.2.1⟩

end Seaplane
